import Mathlib

/-!
Shallow embedding of the ingestion-orchestration and status-reconciliation
layer of the discovery-desktop repository, together with proofs of the
frozen claims about it.

Each definition is translated from one source location, named in its doc
comment.  Statuses are modelled as strings (as in the source), nullable
database columns as `Option`, JavaScript truthiness explicitly.
-/

namespace Discovery

/-- From src/app/api/cases/[caseId]/documents/route.ts lines 9-15:
the STATUS_PRIORITY record, with the `?? 0` default for unknown keys folded
in (route.ts lines 18-19). -/
def STATUS_PRIORITY (s : String) : Nat :=
  if s = "pending" then 1
  else if s = "uploading" then 2
  else if s = "processing" then 3
  else if s = "completed" then 4
  else if s = "failed" then 5
  else 0

/-- From route.ts lines 17-22: update local status only when the remote
status has strictly higher priority. -/
def shouldUpdateStatus (localStatus remoteStatus : String) : Bool :=
  STATUS_PRIORITY localStatus < STATUS_PRIORITY remoteStatus

/-- The five status strings that STATUS_PRIORITY recognizes. -/
def knownStatuses : List String :=
  ["pending", "uploading", "processing", "completed", "failed"]

/-- JavaScript truthiness of a nullable number: null/undefined and 0 are
falsy. -/
def truthyNat : Option Nat → Bool
  | none => false
  | some n => n != 0

/-- JavaScript `a || b` on two nullable numbers: `a` when truthy, else `b`. -/
def jsOrNat (a b : Option Nat) : Option Nat :=
  if truthyNat a then a else b

/-- JavaScript `a || b` where `a` is a plain number (0 falsy) and `b`
nullable. -/
def jsOrNatN (a : Nat) (b : Option Nat) : Option Nat :=
  if a != 0 then some a else b

/-- A row of the local documents table (src/lib/db/schema.ts): the fields
the sync and confirm paths read or write.  `sizeBytes` and `pageCount`
are nullable integer columns. -/
structure DocumentRow where
  id : String
  objectId : String
  ingestionStatus : String
  pageCount : Option Nat
  sizeBytes : Option Nat
deriving DecidableEq

/-- A vault object as returned by the remote list/get calls
(src/lib/casedev/client.ts lines 101-128): `ingestionStatus` is a plain
string, `pageCount` optional, `sizeBytes` a plain number. -/
structure VaultObject where
  id : String
  ingestionStatus : String
  pageCount : Option Nat
  sizeBytes : Nat
deriving DecidableEq

/-- From route.ts lines 134-136: a document takes part in a sync pass iff
its status is neither "completed" nor "failed". -/
def isUnsettled (d : DocumentRow) : Bool :=
  d.ingestionStatus != "completed" && d.ingestionStatus != "failed"

/-- From route.ts line 152: `vaultObj.ingestionStatus || 'pending'`
(the empty string is the only falsy string). -/
def remoteStatusOf (v : VaultObject) : String :=
  if v.ingestionStatus = "" then "pending" else v.ingestionStatus

/-- From route.ts lines 151-179: merge one matched vault object into one
unsettled local document during the batched list sync.  The status
advances only when `shouldUpdateStatus` holds; page/size metadata is
written whenever the row is written at all. -/
def syncDocWithRemote (d : DocumentRow) (v : VaultObject) : DocumentRow :=
  let remoteStatus := remoteStatusOf v
  let localStatus := d.ingestionStatus
  let shouldUpdate := shouldUpdateStatus localStatus remoteStatus
  let hasNewPageCount := truthyNat v.pageCount && !truthyNat d.pageCount
  if shouldUpdate || hasNewPageCount then
    { d with
      ingestionStatus := if shouldUpdate then remoteStatus else localStatus,
      pageCount := jsOrNat v.pageCount d.pageCount,
      sizeBytes := jsOrNatN v.sizeBytes d.sizeBytes }
  else d

/-- From route.ts line 149: locate the matching remote object by the
stored remote reference. -/
def findVaultObject (objs : List VaultObject) (oid : String) : Option VaultObject :=
  objs.find? (fun o => o.id == oid)

/-- One document's fate in a batched sync pass (route.ts lines 148-181):
settled documents are not touched, unmatched documents are not touched. -/
def syncPassDoc (objs : List VaultObject) (d : DocumentRow) : DocumentRow :=
  if isUnsettled d then
    match findVaultObject objs d.objectId with
    | some v => syncDocWithRemote d v
    | none => d
  else d

/-- A whole batched sync pass over the local document list. -/
def syncPass (objs : List VaultObject) (docs : List DocumentRow) : List DocumentRow :=
  docs.map (syncPassDoc objs)

/-- From src/unnamed/part_007 lines 174-211 (GET single document with
sync=true): if the local status is neither "completed" nor "failed", the
row is overwritten with the remote status whenever it merely differs (or a
new page count appeared) — no priority comparison is made, although the
file declares STATUS_PRIORITY for exactly that purpose. -/
def syncDocSingle (d : DocumentRow) (v : VaultObject) : DocumentRow :=
  if isUnsettled d then
    if v.ingestionStatus != d.ingestionStatus ||
        (truthyNat v.pageCount && !truthyNat d.pageCount) then
      { d with
        ingestionStatus := v.ingestionStatus,
        pageCount := jsOrNat v.pageCount d.pageCount,
        sizeBytes := jsOrNatN v.sizeBytes d.sizeBytes }
    else d
  else d

/-! Supporting facts about the batched sync: it never lowers the status
priority, and never touches a settled document. -/

theorem syncDocWithRemote_mono (d : DocumentRow) (v : VaultObject) :
    STATUS_PRIORITY d.ingestionStatus ≤
      STATUS_PRIORITY (syncDocWithRemote d v).ingestionStatus := by
  unfold syncDocWithRemote
  by_cases hs : shouldUpdateStatus d.ingestionStatus (remoteStatusOf v) = true
  · have hlt : STATUS_PRIORITY d.ingestionStatus <
        STATUS_PRIORITY (remoteStatusOf v) := by
      simpa [shouldUpdateStatus] using hs
    simp only [hs]
    split <;> simp [Nat.le_of_lt hlt]
  · have hs' : shouldUpdateStatus d.ingestionStatus (remoteStatusOf v) = false :=
      Bool.eq_false_iff.mpr hs
    simp only [hs']
    split <;> simp

theorem syncPassDoc_settled (objs : List VaultObject) (d : DocumentRow)
    (h : isUnsettled d = false) : syncPassDoc objs d = d := by
  simp [syncPassDoc, h]

/-- The single-document sync also never touches a settled document. -/
theorem syncDocSingle_settled (d : DocumentRow) (v : VaultObject)
    (h : isUnsettled d = false) : syncDocSingle d v = d := by
  simp [syncDocSingle, h]

/-- A local document stuck at "processing" whose remote object reports a
stale "pending". -/
def c1Doc : DocumentRow :=
  { id := "doc-1", objectId := "obj-1", ingestionStatus := "processing",
    pageCount := none, sizeBytes := none }

/-- The corresponding stale remote observation. -/
def c1Obj : VaultObject :=
  { id := "obj-1", ingestionStatus := "pending", pageCount := none,
    sizeBytes := 0 }

/-- C1: the claim says the status priority is non-decreasing under both
status-sync operations, but the single-document sync (part_007, which
declares STATUS_PRIORITY yet never consults it) overwrites a local
"processing" with a stale remote "pending", dropping the priority from
3 to 1.  The batched list sync is monotone (syncDocWithRemote_mono); the
single-document sync is not. -/
theorem C1_single_sync_regresses_status :
    (syncDocSingle c1Doc c1Obj).ingestionStatus = "pending" ∧
      STATUS_PRIORITY (syncDocSingle c1Doc c1Obj).ingestionStatus <
        STATUS_PRIORITY c1Doc.ingestionStatus := by
  constructor
  · rfl
  · decide

/-- C10: shouldUpdateStatus gives priority 0 to any status string outside
the five known states, so a known remote status always overwrites an
unrecognized local status, and an unrecognized remote status never
overwrites a known local status. -/
theorem C10_unknown_status_priority_zero (l r : String) :
    (l ∉ knownStatuses → r ∈ knownStatuses → shouldUpdateStatus l r = true) ∧
      (l ∈ knownStatuses → r ∉ knownStatuses → shouldUpdateStatus l r = false) := by
  have hzero : ∀ s : String, s ∉ knownStatuses → STATUS_PRIORITY s = 0 := by
    intro s hs
    simp only [knownStatuses, List.mem_cons, List.mem_singleton, not_or] at hs
    obtain ⟨h1, h2, h3, h4, h5, _⟩ := hs
    simp [STATUS_PRIORITY, h1, h2, h3, h4, h5]
  have hpos : ∀ s : String, s ∈ knownStatuses → 0 < STATUS_PRIORITY s := by
    intro s hs
    simp only [knownStatuses, List.mem_cons, List.mem_singleton] at hs
    rcases hs with h | h | h | h | h | h
    all_goals first
      | (subst h; decide)
      | exact absurd h (by simp)
  constructor
  · intro hl hr
    have := hpos r hr
    simp [shouldUpdateStatus, hzero l hl, this]
  · intro hl hr
    simp [shouldUpdateStatus, hzero r hr]

/-- Witness for C10 at a concrete unknown status "indexed" against known
statuses. -/
theorem C10_unknown_status_priority_zero_witness :
    shouldUpdateStatus "indexed" "processing" = true ∧
      shouldUpdateStatus "processing" "indexed" = false := by
  refine ⟨(C10_unknown_status_priority_zero "indexed" "processing").1 ?_ ?_,
    (C10_unknown_status_priority_zero "processing" "indexed").2 ?_ ?_⟩
  · decide
  · decide
  · decide
  · decide

/-! Sync debounce (route.ts lines 28-61 and the GET guard at line 140). -/

/-- From route.ts line 28. -/
def SYNC_DEBOUNCE_ACTIVE_MS : Nat := 2000

/-- From route.ts line 29. -/
def SYNC_DEBOUNCE_IDLE_MS : Nat := 10000

/-- One syncCache entry (route.ts line 30): last-sync timestamp and
whether any document was processing then. -/
structure SyncEntry where
  timestamp : Nat
  hasProcessing : Bool
deriving DecidableEq

/-- From route.ts lines 49-61: shouldSync for one case, returning the
decision together with the updated cache entry (the entry is rewritten
exactly when the decision is true). -/
def shouldSync (cached : Option SyncEntry) (now : Nat)
    (hasProcessingDocs : Bool) : Bool × Option SyncEntry :=
  let debounceMs := if hasProcessingDocs then SYNC_DEBOUNCE_ACTIVE_MS
    else SYNC_DEBOUNCE_IDLE_MS
  match cached with
  | none => (true, some { timestamp := now, hasProcessing := hasProcessingDocs })
  | some c =>
    if debounceMs < now - c.timestamp then
      (true, some { timestamp := now, hasProcessing := hasProcessingDocs })
    else (false, some c)

/-- From route.ts line 140: the list route makes the remote list call only
when at least one unsettled document exists AND shouldSync passes (the
short-circuit means shouldSync, and hence the cache write, only happens in
the first case). -/
def listSyncDecision (docs : List DocumentRow) (cached : Option SyncEntry)
    (now : Nat) : Bool × Option SyncEntry :=
  if docs.any isUnsettled then shouldSync cached now (docs.any isUnsettled)
  else (false, cached)

/-- A sequence of list-documents calls, each with the document list it
finds and its clock reading; returns the number of remote list calls made
and the final cache entry. -/
def runListCalls (cached : Option SyncEntry) :
    List (List DocumentRow × Nat) → Nat × Option SyncEntry
  | [] => (0, cached)
  | (docs, t) :: rest =>
    let step := listSyncDecision docs cached t
    let tail := runListCalls step.2 rest
    ((if step.1 then 1 else 0) + tail.1, tail.2)

/-- A settled document list: the second call of the counterexample finds
only a completed document. -/
def c2Docs : List DocumentRow :=
  [{ id := "doc-1", objectId := "obj-1", ingestionStatus := "completed",
     pageCount := some 3, sizeBytes := some 100 }]

/-- C2 counterexample: two list calls 20 seconds apart — far beyond the
10-second idle window — with no processing documents make ZERO remote
calls, not two: without unsettled documents the route never reaches
shouldSync at all. -/
theorem C2_idle_calls_make_no_remote_call :
    (runListCalls none [(c2Docs, 0), (c2Docs, 20000)]).1 = 0 := by
  decide

theorem shouldSync_true_cache (cached : Option SyncEntry) (now : Nat)
    (hp : Bool) (h : (shouldSync cached now hp).1 = true) :
    (shouldSync cached now hp).2 =
      some { timestamp := now, hasProcessing := hp } := by
  unfold shouldSync at h ⊢
  cases cached with
  | none => simp
  | some c =>
    by_cases hlt : (if hp then SYNC_DEBOUNCE_ACTIVE_MS
        else SYNC_DEBOUNCE_IDLE_MS) < now - c.timestamp
    · simp only [hlt, if_true]
    · exact absurd h (by simp [hlt])

theorem listSyncDecision_true_cache (docs : List DocumentRow)
    (cached : Option SyncEntry) (now : Nat)
    (h : (listSyncDecision docs cached now).1 = true) :
    (listSyncDecision docs cached now).2 =
      some { timestamp := now, hasProcessing := docs.any isUnsettled } := by
  unfold listSyncDecision at h ⊢
  by_cases hu : docs.any isUnsettled = true
  · simp only [hu, if_true] at h ⊢
    exact shouldSync_true_cache cached now true h
  · simp [hu] at h

/-- C2 amended: (i) two list calls for the same case within the 2-second
active window cause at most one remote list call; (ii) starting from an
empty cache, two calls more than 10 seconds apart that each find an
unsettled document cause two remote calls; (iii) a call that finds no
unsettled document causes no remote call and leaves the cache alone. -/
theorem C2_debounce_amended (docs1 docs2 : List DocumentRow)
    (cached : Option SyncEntry) (t1 t2 : Nat) :
    (t2 - t1 ≤ 2000 → (runListCalls cached [(docs1, t1), (docs2, t2)]).1 ≤ 1) ∧
      (docs1.any isUnsettled = true → docs2.any isUnsettled = true →
        10000 < t2 - t1 →
        (runListCalls none [(docs1, t1), (docs2, t2)]).1 = 2) ∧
      (docs1.any isUnsettled = false →
        listSyncDecision docs1 cached t1 = (false, cached)) := by
  refine ⟨?_, ?_, ?_⟩
  · intro hgap
    simp only [runListCalls]
    by_cases h1 : (listSyncDecision docs1 cached t1).1 = true
    · have hc := listSyncDecision_true_cache docs1 cached t1 h1
      have h2 : (listSyncDecision docs2 ((listSyncDecision docs1 cached t1).2) t2).1
          = false := by
        rw [hc]
        unfold listSyncDecision
        by_cases hu : docs2.any isUnsettled = true
        · simp only [hu, if_true]
          unfold shouldSync
          have : ¬ (SYNC_DEBOUNCE_ACTIVE_MS < t2 - t1) := by
            simp only [SYNC_DEBOUNCE_ACTIVE_MS]
            omega
          simp [this]
        · simp [hu]
      simp [h1, h2]
    · have h1' : (listSyncDecision docs1 cached t1).1 = false :=
        Bool.eq_false_iff.mpr h1
      by_cases h2 : (listSyncDecision docs2
          ((listSyncDecision docs1 cached t1).2) t2).1 = true
      · simp [h1', h2]
      · have h2' := Bool.eq_false_iff.mpr h2
        simp [h1', h2']
  · intro hu1 hu2 hgap
    have h1 : listSyncDecision docs1 none t1 =
        (true, some { timestamp := t1, hasProcessing := docs1.any isUnsettled }) := by
      unfold listSyncDecision shouldSync
      simp [hu1]
    simp only [runListCalls, h1]
    have h2 : (listSyncDecision docs2
        (some { timestamp := t1, hasProcessing := docs1.any isUnsettled }) t2).1
        = true := by
      unfold listSyncDecision shouldSync
      have : SYNC_DEBOUNCE_ACTIVE_MS < t2 - t1 := by
        simp only [SYNC_DEBOUNCE_ACTIVE_MS]
        omega
      simp [hu2, this]
    simp [h2]
  · intro hu
    unfold listSyncDecision
    simp [hu]

/-- Witness for C2_debounce_amended: one pending document, calls at 0 ms
and 1500 ms (one remote call), and at 0 ms and 20000 ms (two remote
calls); a settled list leaves the cache untouched. -/
theorem C2_debounce_amended_witness :
    ((runListCalls none
        [([({ id := "d", objectId := "o", ingestionStatus := "pending",
              pageCount := none, sizeBytes := none } : DocumentRow)], 0),
         ([({ id := "d", objectId := "o", ingestionStatus := "pending",
              pageCount := none, sizeBytes := none } : DocumentRow)], 1500)]).1 ≤ 1) ∧
      ((runListCalls none
        [([({ id := "d", objectId := "o", ingestionStatus := "pending",
              pageCount := none, sizeBytes := none } : DocumentRow)], 0),
         ([({ id := "d", objectId := "o", ingestionStatus := "pending",
              pageCount := none, sizeBytes := none } : DocumentRow)], 20000)]).1 = 2) ∧
      (listSyncDecision c2Docs none 0 = (false, none)) := by
  refine ⟨?_, ?_, ?_⟩
  · exact (C2_debounce_amended
      [{ id := "d", objectId := "o", ingestionStatus := "pending",
         pageCount := none, sizeBytes := none }]
      [{ id := "d", objectId := "o", ingestionStatus := "pending",
         pageCount := none, sizeBytes := none }] none 0 1500).1 (by decide)
  · exact (C2_debounce_amended
      [{ id := "d", objectId := "o", ingestionStatus := "pending",
         pageCount := none, sizeBytes := none }]
      [{ id := "d", objectId := "o", ingestionStatus := "pending",
         pageCount := none, sizeBytes := none }] none 0 20000).2.1
      (by decide) (by decide) (by decide)
  · exact (C2_debounce_amended c2Docs c2Docs none 0 0).2.2 (by decide)

/-! Debounced analysis trigger (route.ts lines 67-101). -/

/-- From route.ts line 68. -/
def ANALYSIS_DEBOUNCE_MS : Nat := 5000

/-- Timeline semantics of triggerAnalysisIfNeeded (route.ts lines 70-101)
for one case: given the times of the notify calls in order, each call
clears any pending timer and schedules a new one ANALYSIS_DEBOUNCE_MS in
the future; the timer set at time t fires (invoking analyze once, at
t + ANALYSIS_DEBOUNCE_MS) exactly when no further notify call arrives
strictly before t + ANALYSIS_DEBOUNCE_MS.  The result lists the times at
which analyze fires. -/
def analyzeTimes : List Nat → List Nat
  | [] => []
  | [t] => [t + ANALYSIS_DEBOUNCE_MS]
  | t1 :: t2 :: rest =>
    (if t1 + ANALYSIS_DEBOUNCE_MS ≤ t2 then [t1 + ANALYSIS_DEBOUNCE_MS] else []) ++
      analyzeTimes (t2 :: rest)

/-- C3: firing notify K ≥ 1 times with every consecutive gap under 5
seconds yields exactly one analyze invocation, 5 seconds after the last
notify: every earlier timer is cancelled by the following call. -/
theorem C3_debounced_analysis_single_fire (ts : List Nat) (hne : ts ≠ [])
    (hgap : List.Chain' (fun a b => b < a + ANALYSIS_DEBOUNCE_MS) ts) :
    analyzeTimes ts = [ts.getLast hne + ANALYSIS_DEBOUNCE_MS] := by
  induction ts with
  | nil => exact absurd rfl hne
  | cons t1 rest ih =>
    cases rest with
    | nil => simp [analyzeTimes]
    | cons t2 rest2 =>
      have hgap12 : t2 < t1 + ANALYSIS_DEBOUNCE_MS :=
        (List.chain'_cons.mp hgap).1
      have hgaptail : List.Chain' (fun a b => b < a + ANALYSIS_DEBOUNCE_MS)
          (t2 :: rest2) := (List.chain'_cons.mp hgap).2
      have hnot : ¬ (t1 + ANALYSIS_DEBOUNCE_MS ≤ t2) := by omega
      have hrec := ih (by simp) hgaptail
      simp only [analyzeTimes, hnot, if_false, List.nil_append]
      rw [hrec]
      simp [List.getLast_cons]

/-- Witness for C3: three notify calls at 0, 1000 and 2000 ms produce one
analyze invocation at 7000 ms. -/
theorem C3_debounced_analysis_single_fire_witness :
    analyzeTimes [0, 1000, 2000] = [7000] := by
  have h := C3_debounced_analysis_single_fire [0, 1000, 2000] (by decide)
    (by norm_num [List.chain'_cons, ANALYSIS_DEBOUNCE_MS])
  simpa using h

/-! Search execution and caching (src/app/api/cases/[caseId]/search/route.ts,
and the client page src/app/cases/[caseId]/search/[searchId]/page.tsx). -/

/-- A ranked chunk as returned by the remote search (hybridScore is the
combined relevance score in [0,1], modelled as a rational). -/
structure Chunk where
  objectId : String
  chunkIndex : Nat
  text : String
  hybridScore : ℚ
deriving DecidableEq

/-- The request body fields of the search POST that the claims are about
(search/route.ts line 47). -/
structure SearchRequest where
  query : String
  minRelevance : ℚ
  skipHistory : Bool
deriving DecidableEq

/-- A row of the searchHistory table as inserted by the search POST
(search/route.ts lines 180-189). -/
structure SearchRecordRow where
  id : String
  caseId : String
  query : String
  resultCount : Nat
  totalResultCount : Nat
  relevanceThreshold : ℤ
deriving DecidableEq

/-- From search/route.ts line 79: keep chunks whose hybridScore is at
least the requested minimum relevance. -/
def filterChunks (chunks : List Chunk) (minRelevance : ℚ) : List Chunk :=
  chunks.filter (fun c => minRelevance ≤ c.hybridScore)

/-- The filtering and history-logging core of the search POST
(search/route.ts lines 79, 164-190): the response is built from the fresh
remote chunks, and a history row is inserted unless skipHistory is set. -/
def searchPOST (remoteChunks : List Chunk) (req : SearchRequest)
    (history : List SearchRecordRow) (newId caseId : String) :
    (List Chunk × Nat × ℚ) × List SearchRecordRow :=
  let filtered := filterChunks remoteChunks req.minRelevance
  let history' :=
    if req.skipHistory then history
    else
      { id := newId, caseId := caseId, query := req.query,
        resultCount := filtered.length,
        totalResultCount := remoteChunks.length,
        relevanceThreshold := round (req.minRelevance * 100) } :: history
  ((filtered, remoteChunks.length, req.minRelevance), history')

/-- From page.tsx lines 120-133 (handleRetryWithThreshold): the request
the client issues when the user asks for a different threshold — the same
query, minRelevance = newThreshold/100, and skipHistory set. -/
def handleRetryWithThreshold (query : String) (newThreshold : ℚ) : SearchRequest :=
  { query := query, minRelevance := newThreshold / 100, skipHistory := true }

/-- C4: requesting a different relevance threshold on a viewed search
issues a new search execution at the new threshold with skipHistory set;
the displayed payload is computed by filtering the FRESH remote chunks at
the new threshold (never by re-filtering a cached payload), and with
skipHistory set the search operation inserts no new SearchRecord row. -/
theorem C4_threshold_requery_skips_history (query : String) (newThreshold : ℚ)
    (remoteChunks : List Chunk) (history : List SearchRecordRow)
    (newId caseId : String) :
    (handleRetryWithThreshold query newThreshold).skipHistory = true ∧
      (handleRetryWithThreshold query newThreshold).minRelevance =
        newThreshold / 100 ∧
      (searchPOST remoteChunks (handleRetryWithThreshold query newThreshold)
          history newId caseId).2 = history ∧
      (searchPOST remoteChunks (handleRetryWithThreshold query newThreshold)
          history newId caseId).1.1 =
        filterChunks remoteChunks (newThreshold / 100) ∧
      ∀ req : SearchRequest, req.skipHistory = true →
        (searchPOST remoteChunks req history newId caseId).2 = history := by
  refine ⟨rfl, rfl, rfl, rfl, ?_⟩
  intro req hreq
  simp [searchPOST, hreq]

/-- A concrete one-chunk backend response for the C4 witness. -/
def c4Chunk : Chunk :=
  { objectId := "o", chunkIndex := 0, text := "t", hybridScore := 4/5 }

/-- A concrete skipHistory request for the C4 witness. -/
def c4Req : SearchRequest :=
  { query := "q", minRelevance := 1/2, skipHistory := true }

/-- Witness for C4 at a concrete one-chunk backend response and a concrete
skipHistory request. -/
theorem C4_threshold_requery_skips_history_witness :
    (searchPOST [c4Chunk] (handleRetryWithThreshold "q" 50) []
        "sid" "cid").2 = [] ∧
      (searchPOST [c4Chunk] c4Req [] "sid" "cid").2 = [] :=
  ⟨(C4_threshold_requery_skips_history "q" 50 [c4Chunk] [] "sid" "cid").2.2.1,
    (C4_threshold_requery_skips_history "q" 50 [c4Chunk] [] "sid" "cid").2.2.2.2
      c4Req rfl⟩

/-! Client adaptive poller (src/unnamed/part_002, lines 471-544
pollDocuments and 571-632 triggerPolling). -/

/-- From part_002 line 476. -/
def MIN_POLL_INTERVAL : ℚ := 2000

/-- From part_002 line 477. -/
def MAX_POLL_INTERVAL : ℚ := 15000

/-- From part_002 line 478. -/
def BACKOFF_FACTOR : ℚ := 3 / 2

/-- The outcomes one iteration of pollDocuments (part_002 lines 487-544)
can see: a successful fetch whose status signature changed, one whose
signature is unchanged, a successful fetch after which no document is
pending/processing (the loop stops), or a thrown fetch error (the loop
reschedules at the ceiling; the interval variable itself is untouched). -/
inductive PollEvent where
  | changed
  | unchanged
  | settled
  | fetchError
deriving DecidableEq

/-- The pollIntervalRef update performed by one pollDocuments iteration
(part_002 lines 511-521, 533-534, 537-543; the settled case covers both
the entry check at lines 492-495 and the stillProcessing check). -/
def nextInterval (i : ℚ) : PollEvent → ℚ
  | .changed => MIN_POLL_INTERVAL
  | .unchanged => min (i * BACKOFF_FACTOR) MAX_POLL_INTERVAL
  | .settled => MIN_POLL_INTERVAL
  | .fetchError => i

/-- The outcomes one iteration of the manually triggered poll loop
(part_002 lines 583-628) can see; unlike pollDocuments it also stops on a
404 response and on a network error. -/
inductive TriggerPollEvent where
  | changed
  | unchanged
  | settled
  | notFound
  | netError
deriving DecidableEq

/-- The pollIntervalRef update performed by one iteration of the triggered
loop (part_002 lines 597-627): the 404 stop (lines 619-622) and the catch
stop (lines 623-627) clear the timer WITHOUT resetting the interval. -/
def triggerNextInterval (i : ℚ) : TriggerPollEvent → ℚ
  | .changed => MIN_POLL_INTERVAL
  | .unchanged => min (i * BACKOFF_FACTOR) MAX_POLL_INTERVAL
  | .settled => MIN_POLL_INTERVAL
  | .notFound => i
  | .netError => i

theorem nextInterval_bounds (i : ℚ) (e : PollEvent)
    (h1 : MIN_POLL_INTERVAL ≤ i) (h2 : i ≤ MAX_POLL_INTERVAL) :
    MIN_POLL_INTERVAL ≤ nextInterval i e ∧
      nextInterval i e ≤ MAX_POLL_INTERVAL := by
  cases e with
  | changed =>
    simp only [nextInterval]
    norm_num [MIN_POLL_INTERVAL, MAX_POLL_INTERVAL]
  | settled =>
    simp only [nextInterval]
    norm_num [MIN_POLL_INTERVAL, MAX_POLL_INTERVAL]
  | fetchError => exact ⟨h1, h2⟩
  | unchanged =>
    simp only [nextInterval]
    constructor
    · apply le_min
      · have hpos : (0 : ℚ) < i :=
          lt_of_lt_of_le (by norm_num [MIN_POLL_INTERVAL]) h1
        have hle : i ≤ i * BACKOFF_FACTOR := by
          rw [BACKOFF_FACTOR]
          linarith
        exact le_trans h1 hle
      · norm_num [MIN_POLL_INTERVAL, MAX_POLL_INTERVAL]
    · exact min_le_right _ _

theorem triggerNextInterval_bounds (i : ℚ) (e : TriggerPollEvent)
    (h1 : MIN_POLL_INTERVAL ≤ i) (h2 : i ≤ MAX_POLL_INTERVAL) :
    MIN_POLL_INTERVAL ≤ triggerNextInterval i e ∧
      triggerNextInterval i e ≤ MAX_POLL_INTERVAL := by
  cases e with
  | changed =>
    simp only [triggerNextInterval]
    norm_num [MIN_POLL_INTERVAL, MAX_POLL_INTERVAL]
  | settled =>
    simp only [triggerNextInterval]
    norm_num [MIN_POLL_INTERVAL, MAX_POLL_INTERVAL]
  | notFound => exact ⟨h1, h2⟩
  | netError => exact ⟨h1, h2⟩
  | unchanged => exact nextInterval_bounds i .unchanged h1 h2

theorem foldl_nextInterval_bounds (evs : List PollEvent) (i : ℚ)
    (h1 : MIN_POLL_INTERVAL ≤ i) (h2 : i ≤ MAX_POLL_INTERVAL) :
    MIN_POLL_INTERVAL ≤ evs.foldl nextInterval i ∧
      evs.foldl nextInterval i ≤ MAX_POLL_INTERVAL := by
  induction evs generalizing i with
  | nil => exact ⟨h1, h2⟩
  | cons e rest ih =>
    have hb := nextInterval_bounds i e h1 h2
    exact ih (nextInterval i e) hb.1 hb.2

theorem foldl_triggerNextInterval_bounds (evs : List TriggerPollEvent) (i : ℚ)
    (h1 : MIN_POLL_INTERVAL ≤ i) (h2 : i ≤ MAX_POLL_INTERVAL) :
    MIN_POLL_INTERVAL ≤ evs.foldl triggerNextInterval i ∧
      evs.foldl triggerNextInterval i ≤ MAX_POLL_INTERVAL := by
  induction evs generalizing i with
  | nil => exact ⟨h1, h2⟩
  | cons e rest ih =>
    have hb := triggerNextInterval_bounds i e h1 h2
    exact ih (triggerNextInterval i e) hb.1 hb.2

/-- C5 counterexample: in the manually triggered loop, starting from the
floor, one unchanged poll raises the interval to 3000 ms and a subsequent
404 response stops the loop with the interval still at 3000 ms — the
claim says every stop resets the interval to the 2000 ms floor. -/
theorem C5_trigger_stop_keeps_interval :
    triggerNextInterval
        (triggerNextInterval MIN_POLL_INTERVAL .unchanged) .notFound = 3000 ∧
      (3000 : ℚ) ≠ MIN_POLL_INTERVAL := by
  constructor
  · show min (MIN_POLL_INTERVAL * BACKOFF_FACTOR) MAX_POLL_INTERVAL = 3000
    norm_num [MIN_POLL_INTERVAL, MAX_POLL_INTERVAL, BACKOFF_FACTOR]
  · norm_num [MIN_POLL_INTERVAL]

/-- C5 amended: over every run of either polling loop, starting from the
floor, the interval stays within [2000 ms, 15000 ms]; an unchanged poll
multiplies it by 1.5 capped at the ceiling; a changed poll resets it to
the floor; a stop because no document remains pending/processing resets
it to the floor; but a stop of the triggered loop caused by a 404 or a
network error leaves the interval unchanged (it is re-initialized to the
floor only on the next activation). -/
theorem C5_backoff_bounds_amended :
    (∀ evs : List PollEvent,
        MIN_POLL_INTERVAL ≤ evs.foldl nextInterval MIN_POLL_INTERVAL ∧
          evs.foldl nextInterval MIN_POLL_INTERVAL ≤ MAX_POLL_INTERVAL) ∧
      (∀ evs : List TriggerPollEvent,
        MIN_POLL_INTERVAL ≤ evs.foldl triggerNextInterval MIN_POLL_INTERVAL ∧
          evs.foldl triggerNextInterval MIN_POLL_INTERVAL ≤ MAX_POLL_INTERVAL) ∧
      (∀ i : ℚ, nextInterval i .changed = MIN_POLL_INTERVAL ∧
        nextInterval i .unchanged = min (i * BACKOFF_FACTOR) MAX_POLL_INTERVAL ∧
        nextInterval i .settled = MIN_POLL_INTERVAL) ∧
      (∀ i : ℚ, triggerNextInterval i .notFound = i ∧
        triggerNextInterval i .netError = i) := by
  refine ⟨?_, ?_, ?_, ?_⟩
  · intro evs
    exact foldl_nextInterval_bounds evs MIN_POLL_INTERVAL (le_refl _)
      (by norm_num [MIN_POLL_INTERVAL, MAX_POLL_INTERVAL])
  · intro evs
    exact foldl_triggerNextInterval_bounds evs MIN_POLL_INTERVAL (le_refl _)
      (by norm_num [MIN_POLL_INTERVAL, MAX_POLL_INTERVAL])
  · exact fun i => ⟨rfl, rfl, rfl⟩
  · exact fun i => ⟨rfl, rfl⟩

/-! Confirm/trigger boundary
(src/app/api/cases/[caseId]/documents/confirm/route.ts and
src/app/api/cases/[caseId]/documents/[documentId]/confirm/route.ts). -/

/-- Outcome of the remote triggerIngestion call for one document: success
with a workflow id, a failure whose message indicates the work is already
in progress, or a genuine failure. -/
inductive IngestOutcome where
  | ok (workflowId : String)
  | errAlready
  | errReal (msg : String)
deriving DecidableEq

/-- One per-item entry of the batch confirm response (confirm/route.ts
lines 97-103). -/
structure ConfirmItem where
  documentId : String
  success : Bool
deriving DecidableEq

/-- The per-document behaviour of the batch confirm POST (confirm/route.ts
lines 106-163): returns the result entry, the document row as left in the
database, and whether the remote triggerIngestion call was made. -/
def batchConfirmDoc (outcome : IngestOutcome) (d : DocumentRow) :
    ConfirmItem × DocumentRow × Bool :=
  if d.ingestionStatus = "processing" || d.ingestionStatus = "completed" then
    ({ documentId := d.id, success := true }, d, false)
  else
    match outcome with
    | .ok _ =>
      ({ documentId := d.id, success := true },
        { d with ingestionStatus := "processing" }, true)
    | .errAlready =>
      ({ documentId := d.id, success := true }, d, true)
    | .errReal _ =>
      ({ documentId := d.id, success := false },
        { d with ingestionStatus := "failed" }, true)

/-- The response shape of the single-document confirm POST
(documents/[documentId]/confirm/route.ts). -/
inductive SingleConfirmResponse where
  | okSkipped
  | okStarted (workflowId : Option String)
  | errorFailed (msg : String)
deriving DecidableEq

/-- The single-document confirm POST (documents/[documentId]/confirm/
route.ts lines 32-99): skip branch at lines 32-40, errAlready treated as
success at lines 64-69, real error marks the document failed. -/
def singleConfirm (outcome : IngestOutcome) (d : DocumentRow) :
    SingleConfirmResponse × DocumentRow × Bool :=
  if d.ingestionStatus = "processing" || d.ingestionStatus = "completed" then
    (.okSkipped, d, false)
  else
    match outcome with
    | .ok w =>
      (.okStarted (some w), { d with ingestionStatus := "processing" }, true)
    | .errAlready =>
      (.okStarted none, { d with ingestionStatus := "processing" }, true)
    | .errReal m =>
      (.errorFailed m, { d with ingestionStatus := "failed" }, true)

/-- C6: a document already "processing" or "completed" is reported as
success by the batch confirm without any remote triggerIngestion call and
with its row left unchanged; the single-document confirm skips it the
same way. -/
theorem C6_confirm_idempotent_skip (outcome : IngestOutcome)
    (d : DocumentRow)
    (h : d.ingestionStatus = "processing" ∨ d.ingestionStatus = "completed") :
    batchConfirmDoc outcome d =
        ({ documentId := d.id, success := true }, d, false) ∧
      singleConfirm outcome d = (.okSkipped, d, false) := by
  have hb : (d.ingestionStatus = "processing" ||
      d.ingestionStatus = "completed") = true := by
    rcases h with h | h <;> simp [h]
  constructor
  · unfold batchConfirmDoc
    rw [if_pos hb]
  · unfold singleConfirm
    rw [if_pos hb]

/-- A concrete already-completed document for the C6 witness. -/
def c6Doc : DocumentRow :=
  { id := "doc-6", objectId := "obj-6", ingestionStatus := "completed",
    pageCount := some 2, sizeBytes := some 10 }

/-- Witness for C6: confirming an already-completed document is a remote-
call-free success in both confirm operations. -/
theorem C6_confirm_idempotent_skip_witness :
    batchConfirmDoc (.errReal "boom") c6Doc =
        ({ documentId := "doc-6", success := true }, c6Doc, false) ∧
      singleConfirm (.errReal "boom") c6Doc = (.okSkipped, c6Doc, false) :=
  C6_confirm_idempotent_skip (.errReal "boom") c6Doc (Or.inr rfl)

/-! The list-documents GET as a whole (route.ts lines 104-219), with the
remote list call abstracted as an Except value. -/

/-- The observable result of one list-documents GET: the served documents,
whether the response is a success (HTTP 200), whether the remote list
call was made, and the case's syncCache entry afterwards. -/
structure ListGetResult where
  served : List DocumentRow
  httpOk : Bool
  remoteCalled : Bool
  cacheAfter : Option SyncEntry
deriving DecidableEq

/-- From route.ts lines 126-211: serve the local rows; when unsettled
documents exist and the debounce passes, make the batched remote call and
merge it (serving the refreshed rows); if that call throws, delete the
case's syncCache entry and serve the pre-sync local rows with a success
response (lines 198-203). -/
def listDocumentsGET (docs : List DocumentRow) (cached : Option SyncEntry)
    (now : Nat) (remote : Except Unit (List VaultObject)) : ListGetResult :=
  let decision := listSyncDecision docs cached now
  if decision.1 then
    match remote with
    | .ok objs =>
      { served := syncPass objs docs, httpOk := true, remoteCalled := true,
        cacheAfter := decision.2 }
    | .error _ =>
      { served := docs, httpOk := true, remoteCalled := true,
        cacheAfter := none }
  else
    { served := docs, httpOk := true, remoteCalled := false,
      cacheAfter := decision.2 }

/-- C7: when the batched remote call fails during a sync pass, the
list-documents operation still succeeds, serves the pre-sync local rows,
and clears the SyncCacheEntry so the next call is not blocked by the
debounce window. -/
theorem C7_sync_failure_serves_local_and_clears_cache
    (docs : List DocumentRow) (cached : Option SyncEntry) (now : Nat)
    (hsync : (listSyncDecision docs cached now).1 = true) :
    listDocumentsGET docs cached now (.error ()) =
      { served := docs, httpOk := true, remoteCalled := true,
        cacheAfter := none } := by
  unfold listDocumentsGET
  simp [hsync]

/-- A concrete pending document for the C7 witness. -/
def c7Doc : DocumentRow :=
  { id := "d", objectId := "o", ingestionStatus := "pending",
    pageCount := none, sizeBytes := none }

/-- Witness for C7: one pending document, empty cache, remote listing
fails — the caller still gets its local row back with a success response
and the cache entry is gone. -/
theorem C7_sync_failure_serves_local_and_clears_cache_witness :
    listDocumentsGET [c7Doc] none 0 (.error ()) =
      { served := [c7Doc], httpOk := true, remoteCalled := true,
        cacheAfter := none } :=
  C7_sync_failure_serves_local_and_clears_cache [c7Doc] none 0 (by decide)

/-! Metadata backfill during the batched sync (route.ts lines 156-168). -/

/-- An unsettled document that already has a page count but no stored
size. -/
def c8Doc : DocumentRow :=
  { id := "doc-8", objectId := "obj-8", ingestionStatus := "processing",
    pageCount := some 5, sizeBytes := none }

/-- Its remote object: same status and page count, but it does carry a
size the local record lacks. -/
def c8Obj : VaultObject :=
  { id := "obj-8", ingestionStatus := "processing", pageCount := some 5,
    sizeBytes := 1000 }

/-- C8 counterexample: the remote object carries a size value (1000) that
the local record lacks, yet the sync pass leaves the row completely
unchanged — the update is gated on `hasNewPageCount` only (route.ts line
157), so a missing size alone never triggers the backfill the claim
demands. -/
theorem C8_size_only_not_backfilled :
    syncPassDoc [c8Obj] c8Doc = c8Doc ∧
      c8Doc.sizeBytes = none ∧ c8Obj.sizeBytes ≠ 0 := by
  refine ⟨?_, rfl, by decide⟩
  decide

/-- C8 amended: for an unsettled document whose matching remote object
carries a page count the local record lacks, the pass updates the
page/size metadata even when the status comparison does not advance the
status; but when the status does not advance and the page count is not
new, nothing is written at all — in particular a remote size value alone
is never backfilled. -/
theorem C8_metadata_backfill_amended (objs : List VaultObject)
    (d : DocumentRow) (v : VaultObject) (hu : isUnsettled d = true)
    (hfind : findVaultObject objs d.objectId = some v) :
    (truthyNat v.pageCount = true → truthyNat d.pageCount = false →
      (syncPassDoc objs d).pageCount = v.pageCount ∧
        (syncPassDoc objs d).sizeBytes = jsOrNatN v.sizeBytes d.sizeBytes ∧
        (shouldUpdateStatus d.ingestionStatus (remoteStatusOf v) = false →
          (syncPassDoc objs d).ingestionStatus = d.ingestionStatus)) ∧
      (shouldUpdateStatus d.ingestionStatus (remoteStatusOf v) = false →
        (truthyNat v.pageCount && !truthyNat d.pageCount) = false →
        syncPassDoc objs d = d) := by
  have hdoc : syncPassDoc objs d = syncDocWithRemote d v := by
    simp [syncPassDoc, hu, hfind]
  rw [hdoc]
  constructor
  · intro hv hd
    have hnew : (truthyNat v.pageCount && !truthyNat d.pageCount) = true := by
      simp [hv, hd]
    unfold syncDocWithRemote
    by_cases hsu : shouldUpdateStatus d.ingestionStatus (remoteStatusOf v) = true
    · simp [hsu, hnew, jsOrNat, hv]
    · have hsu' := Bool.eq_false_iff.mpr hsu
      simp [hsu', hnew, jsOrNat, hv, hd]
  · intro hsu hnew
    unfold syncDocWithRemote
    simp [hsu, hnew]

/-- A remote object carrying a new page count for the C8 witness. -/
def c8ObjW : VaultObject :=
  { id := "obj-8", ingestionStatus := "processing", pageCount := some 7,
    sizeBytes := 500 }

/-- A local document lacking both page count and size for the C8
witness. -/
def c8DocW : DocumentRow :=
  { id := "doc-8", objectId := "obj-8", ingestionStatus := "processing",
    pageCount := none, sizeBytes := none }

/-- Witness for C8 amended: a new remote page count triggers the backfill
of page count and size while the status (not advancing) stays
"processing"; and the size-only case writes nothing. -/
theorem C8_metadata_backfill_amended_witness :
    ((syncPassDoc [c8ObjW] c8DocW).pageCount = some 7 ∧
        (syncPassDoc [c8ObjW] c8DocW).sizeBytes = some 500 ∧
        (syncPassDoc [c8ObjW] c8DocW).ingestionStatus = "processing") ∧
      syncPassDoc [c8Obj] c8Doc = c8Doc := by
  have h1 := (C8_metadata_backfill_amended [c8ObjW] c8DocW c8ObjW
    (by decide) (by decide)).1 (by decide) (by decide)
  have h2 := (C8_metadata_backfill_amended [c8Obj] c8Doc c8Obj
    (by decide) (by decide)).2 (by decide) (by decide)
  refine ⟨⟨h1.1, h1.2.1, h1.2.2 (by decide)⟩, h2⟩

/-! Client upload orchestrator, confirm phase
(src/lib/upload-context.tsx lines 170-218, confirmUploads). -/

/-- The UploadStep lifecycle states (upload-context.tsx line 7). -/
inductive UploadStep where
  | queued
  | uploading
  | uploaded
  | processing
  | completed
  | error
deriving DecidableEq

/-- The client-visible fields of an UploadFile task (upload-context.tsx
lines 9-17). -/
structure UploadTask where
  id : String
  status : UploadStep
  progress : Nat
  stepMessage : String
deriving DecidableEq

/-- How the batch confirm request can come back, as seen by confirmUploads:
an OK response carrying per-item results, a non-OK HTTP response, or a
thrown network error. -/
inductive ConfirmOutcome where
  | ok (results : List ConfirmItem)
  | httpError
  | netError
deriving DecidableEq

/-- From upload-context.tsx lines 182-194: the step message chosen from
the per-item result found for a document id (a missing or unsuccessful
entry only changes the wording). -/
def confirmedMessage (results : List ConfirmItem) (documentId : String) :
    String :=
  if (results.find? (fun r => r.documentId == documentId)).elim false
      (fun r => r.success) then
    "Upload complete! OCR processing in background."
  else "Uploaded. Processing may be delayed."

/-- From upload-context.tsx lines 185-198: marking pass for one
(documentId, fileId) pair of the OK branch. -/
def confirmMarkStep (results : List ConfirmItem) (p : String × String)
    (f : UploadTask) : UploadTask :=
  if f.id = p.2 then
    { f with
      status := .completed,
      progress := 100,
      stepMessage := confirmedMessage results p.1 }
  else f

/-- The OK branch of confirmUploads (lines 178-199): one marking pass over
the task list per confirmed (documentId, fileId) pair. -/
def confirmUploadsOk (results : List ConfirmItem)
    (pairs : List (String × String)) (files : List UploadTask) :
    List UploadTask :=
  pairs.foldl (fun fs p => fs.map (confirmMarkStep results p)) files

/-- The non-OK / thrown branches of confirmUploads (lines 200-217): every
task in the batch is still marked completed at 100%. -/
def confirmFallbackMark (fileIds : List String) (f : UploadTask) :
    UploadTask :=
  if fileIds.contains f.id then
    { f with
      status := .completed,
      progress := 100,
      stepMessage := "Uploaded. Processing may be delayed." }
  else f

/-- The whole confirmUploads (upload-context.tsx lines 170-218), with the
documentIds/fileIds arrays zipped into pairs. -/
def confirmUploads (outcome : ConfirmOutcome)
    (pairs : List (String × String)) (files : List UploadTask) :
    List UploadTask :=
  match outcome with
  | .ok results => confirmUploadsOk results pairs files
  | .httpError => files.map (confirmFallbackMark (pairs.map Prod.snd))
  | .netError => files.map (confirmFallbackMark (pairs.map Prod.snd))

theorem confirmUploadsOk_map (results : List ConfirmItem)
    (pairs : List (String × String)) (files : List UploadTask) :
    confirmUploadsOk results pairs files =
      files.map (fun f =>
        pairs.foldl (fun g p => confirmMarkStep results p g) f) := by
  induction pairs generalizing files with
  | nil => simp [confirmUploadsOk]
  | cons p ps ih =>
    simp only [confirmUploadsOk, List.foldl_cons]
    have hstep := ih (files.map (confirmMarkStep results p))
    simp only [confirmUploadsOk] at hstep
    rw [hstep, List.map_map]
    rfl

theorem confirmMark_preserved (results : List ConfirmItem)
    (ps : List (String × String)) (f : UploadTask)
    (h : f.status = .completed ∧ f.progress = 100) :
    (ps.foldl (fun g p => confirmMarkStep results p g) f).status =
        .completed ∧
      (ps.foldl (fun g p => confirmMarkStep results p g) f).progress = 100 := by
  induction ps generalizing f with
  | nil => exact h
  | cons p ps ih =>
    simp only [List.foldl_cons]
    apply ih
    unfold confirmMarkStep
    split
    · exact ⟨rfl, rfl⟩
    · exact h

theorem confirmMark_id (results : List ConfirmItem)
    (ps : List (String × String)) (f : UploadTask) :
    (ps.foldl (fun g p => confirmMarkStep results p g) f).id = f.id := by
  induction ps generalizing f with
  | nil => rfl
  | cons p ps ih =>
    simp only [List.foldl_cons]
    rw [ih]
    unfold confirmMarkStep
    split <;> rfl

theorem confirmMark_of_mem (results : List ConfirmItem)
    (ps : List (String × String)) (f : UploadTask)
    (h : f.id ∈ ps.map Prod.snd) :
    (ps.foldl (fun g p => confirmMarkStep results p g) f).status =
        .completed ∧
      (ps.foldl (fun g p => confirmMarkStep results p g) f).progress = 100 := by
  induction ps generalizing f with
  | nil => simp at h
  | cons p ps ih =>
    simp only [List.foldl_cons]
    by_cases hid : f.id = p.2
    · apply confirmMark_preserved
      unfold confirmMarkStep
      rw [if_pos hid]
      exact ⟨rfl, rfl⟩
    · have hmem : f.id ∈ ps.map Prod.snd := by
        simp only [List.map_cons, List.mem_cons] at h
        exact h.resolve_left hid
      have hstep : confirmMarkStep results p f = f := by
        unfold confirmMarkStep
        rw [if_neg hid]
      rw [hstep]
      exact ih f hmem

/-- C9: for every file whose binary transfer succeeded (so its id appears
among the fileIds handed to the confirm phase), confirmUploads leaves its
UploadTask with status "completed" and progress 100 under every outcome —
an OK response, a non-OK response, or a thrown request — so a confirm
failure is never surfaced as an "error" state. -/
theorem C9_confirm_always_completes (outcome : ConfirmOutcome)
    (pairs : List (String × String)) (files : List UploadTask)
    (f : UploadTask) (hf : f ∈ files) (hid : f.id ∈ pairs.map Prod.snd) :
    ∃ g ∈ confirmUploads outcome pairs files,
      g.id = f.id ∧ g.status = .completed ∧ g.progress = 100 := by
  cases outcome with
  | ok results =>
    refine ⟨pairs.foldl (fun g p => confirmMarkStep results p g) f, ?_, ?_, ?_, ?_⟩
    · rw [show confirmUploads (.ok results) pairs files =
          confirmUploadsOk results pairs files from rfl,
        confirmUploadsOk_map]
      exact List.mem_map_of_mem _ hf
    · exact confirmMark_id results pairs f
    · exact (confirmMark_of_mem results pairs f hid).1
    · exact (confirmMark_of_mem results pairs f hid).2
  | httpError =>
    refine ⟨confirmFallbackMark (pairs.map Prod.snd) f, ?_, ?_⟩
    · exact List.mem_map_of_mem _ hf
    · have hc : (pairs.map Prod.snd).contains f.id = true :=
        List.elem_eq_true_of_mem hid
      unfold confirmFallbackMark
      rw [if_pos hc]
      exact ⟨rfl, rfl, rfl⟩
  | netError =>
    refine ⟨confirmFallbackMark (pairs.map Prod.snd) f, ?_, ?_⟩
    · exact List.mem_map_of_mem _ hf
    · have hc : (pairs.map Prod.snd).contains f.id = true :=
        List.elem_eq_true_of_mem hid
      unfold confirmFallbackMark
      rw [if_pos hc]
      exact ⟨rfl, rfl, rfl⟩

/-- A transferred task awaiting confirm, for the C9 witness. -/
def c9Task : UploadTask :=
  { id := "f1", status := .uploaded, progress := 70,
    stepMessage := "Upload complete. Starting processing..." }

/-- Witness for C9: even when the confirm request throws, the transferred
task ends completed at 100%. -/
theorem C9_confirm_always_completes_witness :
    ∃ g ∈ confirmUploads .netError [("d1", "f1")] [c9Task],
      g.id = c9Task.id ∧ g.status = .completed ∧ g.progress = 100 :=
  C9_confirm_always_completes .netError [("d1", "f1")] [c9Task] c9Task
    (by decide) (by decide)

end Discovery
